import Mathlib

/-!
Verification of the retrieval-pipeline and serving behavior of the
ai-tools-chatbot repository (src/ingest.py and src/app.py), as a shallow
embedding in Lean 4.

The embedding translates the two Python source files into pure Lean
functions.  External library behavior that the source delegates to is
modelled explicitly where a claim depends on it:

* pandas: a CSV row is an association list from column name to raw cell
  text; `read_csv` parses an empty cell as a missing value (pandas NaN,
  here `Option.none`), `dropna`, `fillna` and `Series.get` follow the
  pandas semantics the source relies on;
* FAISS: the vector store is the list of (embedding vector, document)
  pairs; `from_documents` embeds every document in order and fails as a
  whole if any single embedding call fails; `save_local` replaces the
  on-disk snapshot; similarity search ranks all entries by descending
  similarity score and returns the first k;
* Streamlit: `st.session_state` is per-session state, while
  `st.cache_resource` is a process-wide cache shared by every session of
  one serving process; `st.stop` halts the script before `main` runs.

Python integers, strings and lists are modelled as `Int`, `String` and
`List`; a Python exception is an `Except.error`, and a `try/except` block
is a `match` on that value.
-/

/-! ## Python string stripping

`str.strip()` removes leading and trailing whitespace characters. -/

/-- The whitespace characters `str.strip()` removes (space, tab, newline,
carriage return, vertical tab, form feed). -/
def isPySpace (c : Char) : Bool :=
  c == ' ' || c == '\t' || c == '\n' || c == '\r' || c == '\x0b' || c == '\x0c'

/-- Python `str.strip()`: drop whitespace from both ends of the string. -/
def pystrip (s : String) : String :=
  String.mk (((s.data.dropWhile isPySpace).reverse.dropWhile isPySpace).reverse)

/-! ## Catalog rows (pandas model)

src/ingest.py reads the catalog with `pd.read_csv`, drops rows whose
`Name` is missing, fills every remaining missing value with the empty
string and then builds one document per remaining row. -/

/-- One raw CSV row: for each column of the catalog, the raw text of the
cell.  A column that is absent from the catalog has no entry at all. -/
abbrev RawRow := List (String × String)

/-- pandas `read_csv` cell parsing: an empty cell is a missing value
(NaN, modelled as `none`); any other cell keeps its text. -/
def readCell (s : String) : Option String :=
  if s = "" then none else some s

/-- A parsed row: column name to parsed cell (`none` models NaN). -/
abbrev ParsedRow := List (String × Option String)

/-- Parse every cell of a raw row (the `pd.read_csv` step). -/
def parseRow (r : RawRow) : ParsedRow :=
  r.map fun p => (p.1, readCell p.2)

/-- `df.dropna(subset=["Name"])` keeps a row exactly when its `Name`
cell holds a value. -/
def keptRow (r : ParsedRow) : Bool :=
  match r.lookup "Name" with
  | some (some _) => true
  | _ => false

/-- `df.fillna("")`: every missing value becomes the empty string. -/
def fillnaRow (r : ParsedRow) : List (String × String) :=
  r.map fun p => (p.1, p.2.getD "")

/-- pandas `Series.get(col, default)` on a row after `fillna`: the cell
value when the column exists, the default when the column is absent. -/
def rowGet (r : List (String × String)) (col dflt : String) : String :=
  (r.lookup col).getD dflt

/-! ## The normalizer (src/ingest.py, load_and_prepare_data) -/

/-- A LangChain `Document`: the embedded text plus the metadata record. -/
structure Document where
  page_content : String
  metadata : List (String × String)
deriving DecidableEq, Repr

/-- The body of the f-string of `load_and_prepare_data` (src/ingest.py
lines 40-62) without its leading and trailing newline: the labeled
fields in their fixed order, separated by blank lines. -/
def innerText (f : List (String × String)) : String :=
  "Tool Name: " ++ rowGet f "Name" "" ++ "\n\n" ++
  "Category: " ++ rowGet f "Category" "" ++ "\n\n" ++
  "Primary Task: " ++ rowGet f "Primary Task" "" ++ "\n\n" ++
  "Description: " ++ rowGet f "Short Description" "" ++ "\n\n" ++
  "Keywords: " ++ rowGet f "Keywords" "" ++ "\n\n" ++
  "Technologies: " ++ rowGet f "technologies" "" ++ "\n\n" ++
  "Industry: " ++ rowGet f "industry" "" ++ "\n\n" ++
  "Pricing: " ++ rowGet f "Pricing" "Not specified" ++ "\n\n" ++
  "Country: " ++ rowGet f "Country" "" ++ "\n\n" ++
  "Year Founded: " ++ rowGet f "Year Founded" "" ++ "\n\n" ++
  "Website: " ++ rowGet f "Website" ""

/-- The `text_content` of one row: the f-string (which opens and closes
with a newline) followed by `.strip()`. -/
def toolText (f : List (String × String)) : String :=
  pystrip ("\n" ++ innerText f ++ "\n")

/-- The metadata dictionary of one row (src/ingest.py lines 65-74);
`str(...)` on a string value is the identity. -/
def toolMetadata (f : List (String × String)) : List (String × String) :=
  [("name", rowGet f "Name" ""),
   ("category", rowGet f "Category" ""),
   ("primary_task", rowGet f "Primary Task" ""),
   ("pricing", rowGet f "Pricing" "Not specified"),
   ("website", rowGet f "Website" ""),
   ("country", rowGet f "Country" ""),
   ("year_founded", rowGet f "Year Founded" ""),
   ("technologies", rowGet f "technologies" "")]

/-- The `Document` built from one retained, filled row. -/
def mkDocument (f : List (String × String)) : Document :=
  ⟨toolText f, toolMetadata f⟩

/-- `load_and_prepare_data` of src/ingest.py: parse the rows, drop the
rows whose `Name` is missing, fill the remaining missing values with
the empty string, and build one document per remaining row. -/
def load_and_prepare_data (rows : List RawRow) : List Document :=
  (((rows.map parseRow).filter keptRow).map fillnaRow).map mkDocument

/-! ## The spec-side canonical text (for the refinement claim C5)

Modelled from the spec: section 4.1 describes canonical_text as the
concatenation of labeled fields in a fixed order, each on its own
labeled line. -/

/-- The labeled field lines, in the order the spec fixes. -/
def labeledLines (f : List (String × String)) : List String :=
  ["Tool Name: " ++ rowGet f "Name" "",
   "Category: " ++ rowGet f "Category" "",
   "Primary Task: " ++ rowGet f "Primary Task" "",
   "Description: " ++ rowGet f "Short Description" "",
   "Keywords: " ++ rowGet f "Keywords" "",
   "Technologies: " ++ rowGet f "technologies" "",
   "Industry: " ++ rowGet f "industry" "",
   "Pricing: " ++ rowGet f "Pricing" "Not specified",
   "Country: " ++ rowGet f "Country" "",
   "Year Founded: " ++ rowGet f "Year Founded" "",
   "Website: " ++ rowGet f "Website" ""]

/-- Concatenate lines so that each stands on a line of its own (a blank
line separates consecutive fields, as in the source text). -/
def joinLines : List String → String
  | [] => ""
  | [x] => x
  | x :: y :: xs => x ++ "\n\n" ++ joinLines (y :: xs)

/-- Modelled from the spec: the canonical text as section 4.1 words it,
the labeled fields concatenated in the fixed order. -/
def spec_canonical_text (f : List (String × String)) : String :=
  joinLines (labeledLines f)

/-! ## Index build (src/ingest.py, build_vectorstore and main) -/

/-- An embedding vector. -/
abbrev EmbVec := List Int

/-- The FAISS vector store: the (vector, document) pairs it holds. -/
structure Vectorstore where
  entries : List (EmbVec × Document)
deriving DecidableEq, Repr

/-- Embed every document in order, pairing each with its vector; the
first failing embedding call fails the whole batch (the provider
exception propagates out of `FAISS.from_documents`). -/
def embedAll (embed : Document → Except String EmbVec) :
    List Document → Except String (List (EmbVec × Document))
  | [] => Except.ok []
  | d :: ds =>
    match embed d with
    | Except.error e => Except.error e
    | Except.ok v =>
      match embedAll embed ds with
      | Except.error e => Except.error e
      | Except.ok rest => Except.ok ((v, d) :: rest)

/-- `FAISS.from_documents`: build the store from the embedded batch. -/
def from_documents (embed : Document → Except String EmbVec)
    (docs : List Document) : Except String Vectorstore :=
  (embedAll embed docs).map Vectorstore.mk

/-- `build_vectorstore` under the `try/except` of `main` (src/ingest.py
lines 104-155), acting on the persisted snapshot: `save_local` runs only
after `from_documents` has succeeded, so an embedding failure leaves the
index directory exactly as it was, while full success replaces the
snapshot with the newly built store. -/
def ingest_run (embed : Document → Except String EmbVec)
    (docs : List Document) (disk : Option Vectorstore) : Option Vectorstore :=
  match from_documents embed docs with
  | Except.error _ => disk
  | Except.ok vs => some vs

/-- Python truthiness of `os.getenv` / `st.secrets.get`: a missing
variable and an empty string are both falsy. -/
def keyPresent : Option String → Bool
  | none => false
  | some s => !(s == "")

/-- What one run of ingest `main` leaves behind: the persisted snapshot,
whether the embedding provider was ever called, and the diagnostics
printed. -/
structure IngestOutcome where
  disk : Option Vectorstore
  providerCalled : Bool
  messages : List String
deriving DecidableEq, Repr

/-- `main` of src/ingest.py: the API-key check, then the CSV existence
check, then load-and-prepare plus build inside `try/except`. -/
def ingest_main (key : Option String) (csvExists : Bool) (rows : List RawRow)
    (embed : Document → Except String EmbVec) (disk : Option Vectorstore) :
    IngestOutcome :=
  if keyPresent key = false then
    { disk := disk, providerCalled := false,
      messages := ["Error: OPENAI_API_KEY not found in environment variables"] }
  else if csvExists = false then
    { disk := disk, providerCalled := false,
      messages := ["Error: CSV file not found at data/ai_tools.csv"] }
  else
    { disk := ingest_run embed (load_and_prepare_data rows) disk,
      providerCalled := true,
      messages := match from_documents embed (load_and_prepare_data rows) with
        | Except.error e => ["Error occurred: " ++ e]
        | Except.ok _ => [] }

/-- The `__main__` guard of src/app.py (lines 236-245): when the key is
falsy in both the environment and the Streamlit secrets, an error is
shown and `st.stop()` keeps `main` from running.  The Bool says whether
`main` (and with it any provider call) is reached. -/
def app_startup (envKey secretsKey : Option String) : Bool × List String :=
  if !keyPresent envKey && !keyPresent secretsKey then
    (false, ["OpenAI API key not found! Please set your API key."])
  else
    (true, [])

/-! ## Similarity retrieval (src/app.py, get_conversation_chain)

Modelled from the spec: the source configures the FAISS retriever with
`search_type="similarity"` and `k = 10`; the search itself is library
code, specified in section 4.4 as the up-to-k entries ranked by
descending similarity. -/

/-- Descending order on scored documents: earlier entries score at
least as high as later ones. -/
def descBySim : (Int × Document) → (Int × Document) → Prop :=
  fun a b => b.1 ≤ a.1

instance : DecidableRel descBySim :=
  fun a b => inferInstanceAs (Decidable (b.1 ≤ a.1))

instance : IsTotal (Int × Document) descBySim :=
  ⟨fun a b => le_total b.1 a.1⟩

instance : IsTrans (Int × Document) descBySim :=
  ⟨fun _ _ _ h1 h2 => le_trans h2 h1⟩

/-- Score every entry of the store against the query, rank by descending
similarity, and keep the first k (FAISS `similarity_search_with_score`). -/
def similarity_search_with_score (vs : Vectorstore)
    (sim : EmbVec → EmbVec → Int) (q : EmbVec) (k : Nat) :
    List (Int × Document) :=
  (List.insertionSort descBySim (vs.entries.map fun p => (sim q p.1, p.2))).take k

/-- The documents the retriever hands to the chain, in ranked order. -/
def similarity_search (vs : Vectorstore) (sim : EmbVec → EmbVec → Int)
    (q : EmbVec) (k : Nat) : List Document :=
  (similarity_search_with_score vs sim q k).map Prod.snd

/-! ## The serving process (src/app.py)

One ongoing conversation turn, one chat message. -/

/-- One (role, text) turn of a conversation. -/
structure Turn where
  role : String
  content : String
deriving DecidableEq, Repr

/-- The `ConversationalRetrievalChain` with its
`ConversationBufferMemory`: the chain object owns the ordered turn
history that is fed to it as `chat_history`. -/
structure ConvChain where
  memory : List Turn
deriving DecidableEq, Repr

/-- The state of one serving process: the `st.cache_resource` slot that
caches the one conversation chain (`get_conversation_chain` hashes none
of its arguments, since `_vectorstore` has a leading underscore, so one
entry serves every call), plus each session's `st.session_state.messages`. -/
structure AppProc where
  cachedChain : Option ConvChain
  sessions : List (String × List Turn)
deriving DecidableEq, Repr

/-- `get_conversation_chain` under `st.cache_resource`: return the
cached chain when there is one, otherwise build a fresh chain with empty
memory and cache it for the whole process. -/
def get_conversation_chain (p : AppProc) : ConvChain × AppProc :=
  match p.cachedChain with
  | some c => (c, p)
  | none => (⟨[]⟩, { p with cachedChain := some ⟨[]⟩ })

/-- Session initialization (src/app.py lines 174-184): a session that
has no state yet gets an empty message list and a conversation chain
obtained through the process-wide cache. -/
def init_session (p : AppProc) (sid : String) : AppProc :=
  if (p.sessions.lookup sid).isSome then p
  else
    let r := get_conversation_chain p
    { r.2 with sessions := r.2.sessions ++ [(sid, [])] }

/-- Replace one session's message list. -/
def updateSession (ss : List (String × List Turn)) (sid : String)
    (f : List Turn → List Turn) : List (String × List Turn) :=
  ss.map fun p => if p.1 = sid then (p.1, f p.2) else p

/-- One successful user turn submitted in session `sid` (src/app.py
lines 198-227): the chain is invoked with the cached chain's memory as
its `chat_history`; the chain then appends the new question and answer
to that shared memory, and the session's own message list records both
turns.  Returns the new process state together with the prompt context
that was fed to the chain for this call. -/
def submit_turn (p : AppProc) (sid : String) (q : String)
    (llm : List Turn → String → String) : AppProc × List Turn :=
  let c := p.cachedChain.getD ⟨[]⟩
  let ctx := c.memory
  let ans := llm ctx q
  ({ cachedChain := some ⟨ctx ++ [⟨"user", q⟩, ⟨"assistant", ans⟩]⟩,
     sessions := updateSession p.sessions sid
       fun ms => ms ++ [⟨"user", q⟩, ⟨"assistant", ans⟩] }, ctx)

/-- A fixed stand-in language model for concrete runs. -/
def demoLlm : List Turn → String → String :=
  fun _ q => "answer to " ++ q

/-- The concrete two-session run for claim C2: sessions A and B both
initialize against one serving process, then session A submits a turn. -/
def twoSessionRun : AppProc :=
  (submit_turn (init_session (init_session ⟨none, []⟩ "A") "B")
    "A" "hello from A" demoLlm).1

/-! ## One chat input under `main` of src/app.py (lines 198-233) -/

/-- One session of the chat surface as `main` sees it: the message
history and whether the vector store loaded. -/
structure ServeSession where
  messages : List Turn
  loaded : Bool
deriving DecidableEq, Repr

/-- What handling one input produces: the next session state, whether
the conversational chain (and with it the similarity index) was
invoked, and the error banners shown. -/
structure HandleResult where
  state : ServeSession
  queried : Bool
  uiErrors : List String
deriving DecidableEq, Repr

/-- `load_vectorstore` of src/app.py: `FAISS.load_local` inside
`try/except`; a load failure yields `None` plus the error and the
instruction to run the build step. -/
def load_vectorstore (res : Except String Vectorstore) :
    Option Vectorstore × List String :=
  match res with
  | Except.ok vs => (some vs, [])
  | Except.error e =>
    (none, ["Error loading vectorstore: " ++ e,
            "Please make sure you\x27ve run ingest.py first to build the index."])

/-- Session startup (src/app.py lines 174-184): the session starts with
no messages, and `vectorstore_loaded` records whether the load
succeeded.  The returned list is what the load step displayed. -/
def init_serve (res : Except String Vectorstore) : ServeSession × List String :=
  match load_vectorstore res with
  | (some _, msgs) => (⟨[], true⟩, msgs)
  | (none, msgs) => (⟨[], false⟩, msgs)

/-- The input-handling block of `main` (src/app.py lines 198-233).  The
user turn is appended first, unconditionally.  When the store is loaded
the chain is invoked (`chainResult` is that call's outcome): a normal
answer is appended as the assistant turn, while an exception is caught
and `"Error: " ++ e` is both shown and appended as the assistant turn.
When the store is not loaded the chain is never invoked and only an
error banner is shown. -/
def handle_input (s : ServeSession) (input : String)
    (chainResult : Except String String) : HandleResult :=
  let s1 : ServeSession := { s with messages := s.messages ++ [⟨"user", input⟩] }
  if s1.loaded then
    match chainResult with
    | Except.ok ans =>
      ⟨{ s1 with messages := s1.messages ++ [⟨"assistant", ans⟩] }, true, []⟩
    | Except.error e =>
      ⟨{ s1 with messages := s1.messages ++ [⟨"assistant", "Error: " ++ e⟩] },
       true, ["Error: " ++ e]⟩
  else
    ⟨s1, false, ["Vectorstore not loaded. Please check the setup."]⟩

/-- The predicate of claim C3 on a raw catalog row: the row carries a
non-empty `Name` cell. -/
def hasNonEmptyName (raw : RawRow) : Bool :=
  match raw.lookup "Name" with
  | some s => !(s == "")
  | none => false

/-! ## Helper lemmas -/

/-- Strings with equal character data are equal. -/
theorem strext {a b : String} (h : a.data = b.data) : a = b := by
  cases a; cases b; exact congrArg String.mk h

/-- Looking a key up after mapping every value commutes with the map. -/
theorem lookup_map_val {α β : Type} (f : α → β) (r : List (String × α)) (k : String) :
    List.lookup k (r.map fun p => (p.1, f p.2)) = (List.lookup k r).map f := by
  induction r with
  | nil => rfl
  | cons hd tl ih =>
    obtain ⟨k1, v1⟩ := hd
    by_cases h : k = k1
    · subst h; simp [List.lookup]
    · have hb : (k == k1) = false := beq_false_of_ne h
      simp [List.lookup, hb, ih]

/-- A cell of the parsed-then-filled row, in terms of the raw row. -/
theorem lookup_fill (raw : RawRow) (col : String) :
    List.lookup col (fillnaRow (parseRow raw))
      = (List.lookup col raw).map fun cell => (readCell cell).getD "" := by
  have h1 : List.lookup col (fillnaRow (parseRow raw))
      = (List.lookup col (parseRow raw)).map fun o => Option.getD o "" :=
    lookup_map_val (fun o => Option.getD o "") (parseRow raw) col
  have h2 : List.lookup col (parseRow raw) = (List.lookup col raw).map readCell :=
    lookup_map_val readCell raw col
  rw [h1, h2, Option.map_map]
  rfl

/-- The dropna test on a parsed row agrees with the non-empty-Name test
on the raw row. -/
theorem keptRow_parseRow (raw : RawRow) :
    keptRow (parseRow raw) = hasNonEmptyName raw := by
  unfold keptRow hasNonEmptyName parseRow
  rw [lookup_map_val readCell raw "Name"]
  cases h : List.lookup "Name" raw with
  | none => rfl
  | some s =>
    by_cases hs : s = "" <;> simp [readCell, hs]

/-- Parsing commutes with the Name filter. -/
theorem filter_map_parse (rows : List RawRow) :
    (rows.map parseRow).filter keptRow = (rows.filter hasNonEmptyName).map parseRow := by
  induction rows with
  | nil => rfl
  | cons r rs ih =>
    simp only [List.map_cons, List.filter_cons, keptRow_parseRow]
    cases h : hasNonEmptyName r <;> simp [h, ih]

/-- Stripping is invariant under wrapping the string in one newline on
each side: the strip removes the padding together with whatever border
whitespace it would have removed anyway. -/
theorem pystrip_pad (s : String) : pystrip ("\n" ++ s ++ "\n") = pystrip s := by
  apply strext
  show (((("\n" ++ s ++ "\n").data.dropWhile isPySpace).reverse.dropWhile
      isPySpace).reverse)
    = (((s.data.dropWhile isPySpace).reverse.dropWhile isPySpace).reverse)
  have hnl : isPySpace '\n' = true := by decide
  have hd : ("\n" ++ s ++ "\n").data = '\n' :: (s.data ++ ['\n']) := by
    rw [String.data_append, String.data_append]
    rfl
  have step1 : List.dropWhile isPySpace ('\n' :: (s.data ++ ['\n']))
      = List.dropWhile isPySpace (s.data ++ ['\n']) := by
    simp [List.dropWhile_cons, hnl]
  rw [hd, step1, List.dropWhile_append]
  cases hA : List.dropWhile isPySpace s.data with
  | nil => simp [List.dropWhile_cons, hnl]
  | cons y ys => simp [List.reverse_append, List.dropWhile_cons, hnl]

/-- The body of the f-string is the spec-side concatenation of the
labeled fields in their fixed order. -/
theorem innerText_eq_spec (f : List (String × String)) :
    innerText f = spec_canonical_text f := by
  apply strext
  simp only [innerText, spec_canonical_text, labeledLines, joinLines,
    String.data_append, List.append_assoc]

/-- If one embedding call fails, the whole batch fails. -/
theorem embedAll_error_of_fail (embed : Document → Except String EmbVec)
    (docs : List Document) (d : Document) (e : String)
    (hd : d ∈ docs) (he : embed d = Except.error e) :
    ∃ e2, embedAll embed docs = Except.error e2 := by
  induction docs with
  | nil => cases hd
  | cons a ds ih =>
    rcases List.mem_cons.mp hd with rfl | hd2
    · exact ⟨e, by simp [embedAll, he]⟩
    · cases h : embed a with
      | error e3 => exact ⟨e3, by simp [embedAll, h]⟩
      | ok v =>
        obtain ⟨e2, h2⟩ := ih hd2
        exact ⟨e2, by simp [embedAll, h, h2]⟩

/-- If the batch succeeds, every single embedding call succeeded. -/
theorem embedAll_ok_mem (embed : Document → Except String EmbVec)
    (docs : List Document) (l : List (EmbVec × Document))
    (hok : embedAll embed docs = Except.ok l)
    (d : Document) (hd : d ∈ docs) : ∃ v, embed d = Except.ok v := by
  induction docs generalizing l with
  | nil => cases hd
  | cons a ds ih =>
    rcases List.mem_cons.mp hd with rfl | hd2
    · cases h : embed d with
      | error e => rw [embedAll, h] at hok; cases hok
      | ok v => exact ⟨v, rfl⟩
    · cases h : embed a with
      | error e => rw [embedAll, h] at hok; cases hok
      | ok v =>
        cases h2 : embedAll embed ds with
        | error e => rw [embedAll, h, h2] at hok; cases hok
        | ok l2 => exact ih l2 h2 hd2

/-! ## The claims -/

/-- C1: for every sequence of documents, if obtaining an embedding fails
for any document during the index build, no index is persisted and the
previously persisted index is left unchanged; the persisted snapshot is
replaced only when the build succeeds for every document. -/
theorem claim_C1_build_all_or_nothing (embed : Document → Except String EmbVec)
    (docs : List Document) (disk : Option Vectorstore) :
    ((∃ d ∈ docs, ∃ e, embed d = Except.error e) → ingest_run embed docs disk = disk) ∧
    (ingest_run embed docs disk ≠ disk → ∀ d ∈ docs, ∃ v, embed d = Except.ok v) := by
  constructor
  · rintro ⟨d, hd, e, he⟩
    obtain ⟨e2, h2⟩ := embedAll_error_of_fail embed docs d e hd he
    simp [ingest_run, from_documents, h2, Except.map]
  · intro hne d hd
    cases h : embedAll embed docs with
    | error e =>
      exact absurd (by simp [ingest_run, from_documents, h, Except.map]) hne
    | ok l => exact embedAll_ok_mem embed docs l h d hd

/-- A demonstration document for concrete runs. -/
def demoDoc : Document := ⟨"demo", []⟩

/-- Witness for C1: an embedding failure on a one-document build leaves
the prior snapshot on disk untouched. -/
theorem claim_C1_witness :
    ingest_run (fun _ => Except.error "quota") [demoDoc] (some ⟨[]⟩) = some ⟨[]⟩ :=
  (claim_C1_build_all_or_nothing (fun _ => Except.error "quota") [demoDoc]
    (some ⟨[]⟩)).1 ⟨demoDoc, by simp, "quota", rfl⟩

/-- C2 (the code as written): against one serving process, after session
A submits a turn, the prompt context the conversational chain receives
for a turn of the distinct session B already contains the turn submitted
in session A — the conversation state is shared, not per-session,
because the chain and its memory sit in the process-wide
`st.cache_resource` cache. -/
theorem claim_C2_cross_session_leak :
    ("A" : String) ≠ "B" ∧
    Turn.mk "user" "hello from A" ∈ (submit_turn twoSessionRun "B" "hi from B" demoLlm).2 := by
  constructor
  · decide
  · decide

/-- C3: the normalizer produces exactly one document per catalog row
with a non-empty Name cell and none for a row whose Name is missing or
empty, so the number of documents equals the number of rows with a
non-empty Name. -/
theorem claim_C3_name_filter (rows : List RawRow) :
    load_and_prepare_data rows
      = (rows.filter hasNonEmptyName).map (fun raw => mkDocument (fillnaRow (parseRow raw))) ∧
    (load_and_prepare_data rows).length = (rows.filter hasNonEmptyName).length := by
  have h : load_and_prepare_data rows
      = (rows.filter hasNonEmptyName).map fun raw => mkDocument (fillnaRow (parseRow raw)) := by
    unfold load_and_prepare_data
    rw [filter_map_parse]
    simp only [List.map_map]
    rfl
  exact ⟨h, by rw [h, List.length_map]⟩

/-- C4 counterexample: a retained row whose Pricing cell is missing gets
the empty string as its pricing metadata, not "Not specified" — the
`fillna("")` step runs before `row.get('Pricing', 'Not specified')`, so
that default is reachable only when the whole Pricing column is absent. -/
theorem claim_C4_counterexample :
    ((load_and_prepare_data [[("Name", "DemoTool"), ("Pricing", "")]]).map
      fun d => d.metadata.lookup "pricing") = [some ""] ∧
    ("" : String) ≠ "Not specified" := by
  constructor
  · rfl
  · decide

/-- C4 (amended): the pricing value used by both the canonical text and
the metadata record is "Not specified" exactly when the Pricing column
is absent from the catalog; when the column is present but the cell is
missing, pricing defaults to the empty string, like every other missing
field. -/
theorem claim_C4_pricing_default (raw : RawRow) :
    (List.lookup "Pricing" raw = none →
      (toolMetadata (fillnaRow (parseRow raw))).lookup "pricing" = some "Not specified" ∧
      rowGet (fillnaRow (parseRow raw)) "Pricing" "Not specified" = "Not specified") ∧
    (List.lookup "Pricing" raw = some "" →
      (toolMetadata (fillnaRow (parseRow raw))).lookup "pricing" = some "" ∧
      rowGet (fillnaRow (parseRow raw)) "Pricing" "Not specified" = "") ∧
    (∀ col : String, List.lookup col raw = some "" →
      rowGet (fillnaRow (parseRow raw)) col "" = "") := by
  have hmeta : (toolMetadata (fillnaRow (parseRow raw))).lookup "pricing"
      = some (rowGet (fillnaRow (parseRow raw)) "Pricing" "Not specified") := rfl
  refine ⟨?_, ?_, ?_⟩
  · intro h
    have : rowGet (fillnaRow (parseRow raw)) "Pricing" "Not specified" = "Not specified" := by
      simp [rowGet, lookup_fill, h]
    exact ⟨by rw [hmeta, this], this⟩
  · intro h
    have : rowGet (fillnaRow (parseRow raw)) "Pricing" "Not specified" = "" := by
      simp [rowGet, lookup_fill, h, readCell]
    exact ⟨by rw [hmeta, this], this⟩
  · intro col h
    simp [rowGet, lookup_fill, h, readCell]

/-- Witness for C4 (amended): a row without a Pricing entry defaults to
"Not specified", and a missing Category cell defaults to the empty string. -/
theorem claim_C4_pricing_default_witness :
    (toolMetadata (fillnaRow (parseRow [("Name", "T")]))).lookup "pricing"
      = some "Not specified" ∧
    rowGet (fillnaRow (parseRow [("Name", "T"), ("Category", "")])) "Category" "" = "" :=
  ⟨((claim_C4_pricing_default [("Name", "T")]).1 rfl).1,
   (claim_C4_pricing_default [("Name", "T"), ("Category", "")]).2.2 "Category" rfl⟩

/-- C5: for every record, the body of the canonical text is the
concatenation of the labeled fields in the fixed order Name, Category,
Primary Task, Description, Keywords, Technologies, Industry, Pricing,
Country, Year Founded, Website, each on its own labeled line; the
produced canonical text is that spec-side rendering with its border
whitespace trimmed, exactly as the code's final `.strip()` trims it;
and the normalizer is deterministic: invoked on an equal record it
produces byte-identical text. -/
theorem claim_C5_canonical_text (f : List (String × String)) :
    innerText f = spec_canonical_text f ∧
    toolText f = pystrip (spec_canonical_text f) ∧
    ∀ g : List (String × String), g = f → toolText g = toolText f := by
  refine ⟨innerText_eq_spec f, ?_, ?_⟩
  · unfold toolText
    rw [innerText_eq_spec]
    exact pystrip_pad (spec_canonical_text f)
  · intro g hg
    rw [hg]

/-- Witness for C5 at a concrete row, one with no Website entry at all. -/
theorem claim_C5_canonical_text_witness :
    toolText [("Name", "Alpha")] = pystrip (spec_canonical_text [("Name", "Alpha")]) :=
  (claim_C5_canonical_text [("Name", "Alpha")]).2.1

/-- C6: when the provider call raises during serving, the error message
is appended as the assistant turn, every turn recorded before the
failing request is unchanged (the prior history is a strict prefix of
the new one), and the session stays alive for further requests. -/
theorem claim_C6_error_turn (s : ServeSession) (input e : String)
    (h : s.loaded = true) :
    (handle_input s input (Except.error e)).state.messages
      = s.messages ++ [⟨"user", input⟩, ⟨"assistant", "Error: " ++ e⟩] ∧
    (handle_input s input (Except.error e)).state.loaded = true := by
  constructor <;> simp [handle_input, h]

/-- Witness for C6: a failing provider call after an existing exchange. -/
theorem claim_C6_error_turn_witness :
    (handle_input ⟨[⟨"user", "a"⟩, ⟨"assistant", "b"⟩], true⟩ "q"
      (Except.error "boom")).state.messages
      = [⟨"user", "a"⟩, ⟨"assistant", "b"⟩, ⟨"user", "q"⟩,
         ⟨"assistant", "Error: boom"⟩] := by
  simpa using (claim_C6_error_turn ⟨[⟨"user", "a"⟩, ⟨"assistant", "b"⟩], true⟩
    "q" "boom" rfl).1

/-- C7: retrieval returns the entries ranked by descending similarity,
at most k of them and at most the index size; fewer than k come back
only when the index holds fewer than k entries. -/
theorem claim_C7_retrieval_bounds (vs : Vectorstore) (sim : EmbVec → EmbVec → Int)
    (q : EmbVec) (k : Nat) :
    (similarity_search vs sim q k).length = min k vs.entries.length ∧
    List.Sorted descBySim (similarity_search_with_score vs sim q k) ∧
    ((similarity_search vs sim q k).length < k → vs.entries.length < k) := by
  have hlen : (similarity_search vs sim q k).length = min k vs.entries.length := by
    simp [similarity_search, similarity_search_with_score, List.length_take,
      List.length_insertionSort, List.length_map]
  refine ⟨hlen, ?_, ?_⟩
  · exact List.Pairwise.sublist (List.take_sublist k _)
      (List.sorted_insertionSort descBySim _)
  · intro hlt
    rw [hlen] at hlt
    rcases min_lt_iff.mp hlt with h | h
    · exact absurd h (lt_irrefl k)
    · exact h

/-- C8: when the index fails to load at startup, the session starts in
the unavailable state, the instruction to run the build step is shown,
and in that state no input ever invokes the chain (hence no similarity
query), the state stays unavailable, and an unavailable banner is shown
instead of a crash. -/
theorem claim_C8_index_unavailable (e : String) :
    (init_serve (Except.error e)).1.loaded = false ∧
    "Please make sure you\x27ve run ingest.py first to build the index."
      ∈ (init_serve (Except.error e)).2 ∧
    ∀ (s : ServeSession) (input : String) (r : Except String String),
      s.loaded = false →
        (handle_input s input r).queried = false ∧
        (handle_input s input r).state.loaded = false ∧
        "Vectorstore not loaded. Please check the setup."
          ∈ (handle_input s input r).uiErrors := by
  refine ⟨rfl, ?_, ?_⟩
  · simp [init_serve, load_vectorstore]
  · intro s input r h
    refine ⟨?_, ?_, ?_⟩ <;> simp [handle_input, h]

/-- C9: with the provider key absent (or empty) in the environment and
the secret store, ingest returns before any provider call with the
diagnostic and the snapshot untouched, and the serving program stops
before `main` runs. -/
theorem claim_C9_missing_key_halts (k sk : Option String) (csv : Bool)
    (rows : List RawRow) (embed : Document → Except String EmbVec)
    (disk : Option Vectorstore)
    (hk : keyPresent k = false) (hs : keyPresent sk = false) :
    (ingest_main k csv rows embed disk).providerCalled = false ∧
    (ingest_main k csv rows embed disk).disk = disk ∧
    "Error: OPENAI_API_KEY not found in environment variables"
      ∈ (ingest_main k csv rows embed disk).messages ∧
    (app_startup k sk).1 = false ∧
    (app_startup k sk).2 ≠ [] := by
  refine ⟨?_, ?_, ?_, ?_, ?_⟩ <;> simp [ingest_main, app_startup, hk, hs]

/-- Witness for C9: no key in the environment, an empty key in the
secret store. -/
theorem claim_C9_missing_key_halts_witness :
    (ingest_main none true [] (fun _ => Except.error "unused") none).providerCalled
      = false ∧
    (app_startup none (some "")).1 = false :=
  ⟨(claim_C9_missing_key_halts none (some "") true []
      (fun _ => Except.error "unused") none rfl rfl).1,
   (claim_C9_missing_key_halts none (some "") true []
      (fun _ => Except.error "unused") none rfl rfl).2.2.2.1⟩

/-- C10: input submitted while the vector store is not loaded still
appends the user turn to the session history, but no assistant turn is
appended for it, so the history ends with the unanswered user turn. -/
theorem claim_C10_unanswered_user_turn (s : ServeSession) (input : String)
    (r : Except String String) (h : s.loaded = false) :
    (handle_input s input r).state.messages = s.messages ++ [⟨"user", input⟩] ∧
    (handle_input s input r).state.messages.getLast? = some ⟨"user", input⟩ := by
  have h1 : (handle_input s input r).state.messages
      = s.messages ++ [⟨"user", input⟩] := by
    simp [handle_input, h]
  exact ⟨h1, by rw [h1]; exact List.getLast?_concat _⟩

/-- Witness for C10: one input against an unloaded store. -/
theorem claim_C10_unanswered_user_turn_witness :
    (handle_input ⟨[], false⟩ "q" (Except.ok "a")).state.messages = [⟨"user", "q"⟩] := by
  simpa using (claim_C10_unanswered_user_turn ⟨[], false⟩ "q" (Except.ok "a") rfl).1
